import Mathlib

/-!
Shallow embedding of the battleground manager
(`src/server/game/Battlegrounds/BattlegroundMgr.cpp`).

The manager's containers are modelled as follows: `std::map` becomes an
association list ordered as the program keeps it, `std::set<uint32>` becomes a
strictly sorted `List Nat`, `std::vector<uint64>` becomes `List Nat`, and
machine integers become `Nat` with an explicit `% 2 ^ 32` (resp. `% 2 ^ 64`)
wherever the C++ arithmetic can wrap.  External collaborators (the concrete
`Battleground` subclasses' `Update`/`ToBeDeleted`, the `BattlegroundQueue`
objects, `sMapMgr->GenerateInstanceId`, the weighted-random helper) live in
other translation units; they enter the model as explicit function parameters
or as call logs, as documented at each definition.
-/

set_option maxRecDepth 4000

/-- Battleground type ids, per `SharedDefines.h` (numeric values are used only
inside the packed 64-bit schedule key; no statement below depends on the exact
numbers).  The C++ enum is open (it is freely cast from `uint32`), hence the
extra `BATTLEGROUND_UNKNOWN` constructor carrying the raw value. -/
inductive BattlegroundTypeId where
  | BATTLEGROUND_TYPE_NONE
  | BATTLEGROUND_AV
  | BATTLEGROUND_WS
  | BATTLEGROUND_AB
  | BATTLEGROUND_NA
  | BATTLEGROUND_BE
  | BATTLEGROUND_AA
  | BATTLEGROUND_EY
  | BATTLEGROUND_RL
  | BATTLEGROUND_SA
  | BATTLEGROUND_DS
  | BATTLEGROUND_RV
  | BATTLEGROUND_IC
  | BATTLEGROUND_RB
  | BATTLEGROUND_TP
  | BATTLEGROUND_BFG
  | BATTLEGROUND_UNKNOWN (raw : Nat)
  deriving DecidableEq

/-- Raw enum value of a battleground type id (`SharedDefines.h`). -/
def BattlegroundTypeId.toNat : BattlegroundTypeId → Nat
  | .BATTLEGROUND_TYPE_NONE => 0
  | .BATTLEGROUND_AV => 1
  | .BATTLEGROUND_WS => 2
  | .BATTLEGROUND_AB => 3
  | .BATTLEGROUND_NA => 4
  | .BATTLEGROUND_BE => 5
  | .BATTLEGROUND_AA => 6
  | .BATTLEGROUND_EY => 7
  | .BATTLEGROUND_RL => 8
  | .BATTLEGROUND_SA => 9
  | .BATTLEGROUND_DS => 10
  | .BATTLEGROUND_RV => 11
  | .BATTLEGROUND_IC => 30
  | .BATTLEGROUND_RB => 32
  | .BATTLEGROUND_TP => 108
  | .BATTLEGROUND_BFG => 120
  | .BATTLEGROUND_UNKNOWN raw => raw

/-- Interpretation of a raw `uint32` as a battleground type id (the C++ cast
`BattlegroundTypeId(n)`). -/
def BattlegroundTypeId.ofRaw (n : Nat) : BattlegroundTypeId :=
  if n = 0 then .BATTLEGROUND_TYPE_NONE
  else if n = 1 then .BATTLEGROUND_AV
  else if n = 2 then .BATTLEGROUND_WS
  else if n = 3 then .BATTLEGROUND_AB
  else if n = 4 then .BATTLEGROUND_NA
  else if n = 5 then .BATTLEGROUND_BE
  else if n = 6 then .BATTLEGROUND_AA
  else if n = 7 then .BATTLEGROUND_EY
  else if n = 8 then .BATTLEGROUND_RL
  else if n = 9 then .BATTLEGROUND_SA
  else if n = 10 then .BATTLEGROUND_DS
  else if n = 11 then .BATTLEGROUND_RV
  else if n = 30 then .BATTLEGROUND_IC
  else if n = 32 then .BATTLEGROUND_RB
  else if n = 108 then .BATTLEGROUND_TP
  else if n = 120 then .BATTLEGROUND_BFG
  else .BATTLEGROUND_UNKNOWN n

/-- Battleground queue type ids, per `SharedDefines.h`.  The closed range
`BATTLEGROUND_QUEUE_2v2 .. BATTLEGROUND_QUEUE_5v5` is contiguous, which the
forced-update loop in `BattlegroundMgr::Update` relies on. -/
inductive BattlegroundQueueTypeId where
  | BATTLEGROUND_QUEUE_NONE
  | BATTLEGROUND_QUEUE_AV
  | BATTLEGROUND_QUEUE_AB
  | BATTLEGROUND_QUEUE_EY
  | BATTLEGROUND_QUEUE_WS
  | BATTLEGROUND_QUEUE_SA
  | BATTLEGROUND_QUEUE_IC
  | BATTLEGROUND_QUEUE_TP
  | BATTLEGROUND_QUEUE_BFG
  | BATTLEGROUND_QUEUE_RB
  | BATTLEGROUND_QUEUE_2v2
  | BATTLEGROUND_QUEUE_3v3
  | BATTLEGROUND_QUEUE_5v5
  deriving DecidableEq

/-- Raw enum value of a queue type id. -/
def BattlegroundQueueTypeId.toNat : BattlegroundQueueTypeId → Nat
  | .BATTLEGROUND_QUEUE_NONE => 0
  | .BATTLEGROUND_QUEUE_AV => 1
  | .BATTLEGROUND_QUEUE_AB => 2
  | .BATTLEGROUND_QUEUE_EY => 3
  | .BATTLEGROUND_QUEUE_WS => 4
  | .BATTLEGROUND_QUEUE_SA => 5
  | .BATTLEGROUND_QUEUE_IC => 6
  | .BATTLEGROUND_QUEUE_TP => 7
  | .BATTLEGROUND_QUEUE_BFG => 8
  | .BATTLEGROUND_QUEUE_RB => 9
  | .BATTLEGROUND_QUEUE_2v2 => 10
  | .BATTLEGROUND_QUEUE_3v3 => 11
  | .BATTLEGROUND_QUEUE_5v5 => 12

/-- Interpretation of a raw byte as a queue type id (the C++ cast
`BattlegroundQueueTypeId(n)`); a value outside the enum range would index the
queue array out of bounds in C++, reachable schedule entries never produce
one, and we map it to the `NONE` slot. -/
def BattlegroundQueueTypeId.ofRaw (n : Nat) : BattlegroundQueueTypeId :=
  if n = 1 then .BATTLEGROUND_QUEUE_AV
  else if n = 2 then .BATTLEGROUND_QUEUE_AB
  else if n = 3 then .BATTLEGROUND_QUEUE_EY
  else if n = 4 then .BATTLEGROUND_QUEUE_WS
  else if n = 5 then .BATTLEGROUND_QUEUE_SA
  else if n = 6 then .BATTLEGROUND_QUEUE_IC
  else if n = 7 then .BATTLEGROUND_QUEUE_TP
  else if n = 8 then .BATTLEGROUND_QUEUE_BFG
  else if n = 9 then .BATTLEGROUND_QUEUE_RB
  else if n = 10 then .BATTLEGROUND_QUEUE_2v2
  else if n = 11 then .BATTLEGROUND_QUEUE_3v3
  else if n = 12 then .BATTLEGROUND_QUEUE_5v5
  else .BATTLEGROUND_QUEUE_NONE

/-- Arena team-size constants (`ARENA_TYPE_2v2` etc. in `SharedDefines.h`). -/
def ARENA_TYPE_2v2 : Nat := 2

def ARENA_TYPE_3v3 : Nat := 3

def ARENA_TYPE_5v5 : Nat := 5

/-- Holiday ids appearing in the weekend mapping; the C++ enum is open, hence
`HOLIDAY_UNKNOWN`. -/
inductive HolidayIds where
  | HOLIDAY_NONE
  | HOLIDAY_CALL_TO_ARMS_AV
  | HOLIDAY_CALL_TO_ARMS_EY
  | HOLIDAY_CALL_TO_ARMS_WS
  | HOLIDAY_CALL_TO_ARMS_SA
  | HOLIDAY_CALL_TO_ARMS_AB
  | HOLIDAY_CALL_TO_ARMS_IC
  | HOLIDAY_CALL_TO_ARMS_TP
  | HOLIDAY_CALL_TO_ARMS_BFG
  | HOLIDAY_UNKNOWN (raw : Nat)
  deriving DecidableEq

/-- Battleground lifecycle statuses (`Battleground.h`). -/
inductive BattlegroundStatus where
  | STATUS_NONE
  | STATUS_WAIT_QUEUE
  | STATUS_WAIT_JOIN
  | STATUS_IN_PROGRESS
  | STATUS_WAIT_LEAVE
  deriving DecidableEq

/-- The slice of a live `Battleground` object that `BattlegroundMgr.cpp`
reads or writes (via `GetBracketId`, `GetClientInstanceID`, `SetBracket`,
`SetInstanceID`, `SetClientInstanceID`, `SetStatus`, `SetArenaType`,
`SetRandomTypeID`, `SetRated`, `SetRandom`, `isArena`).  Fields the manager
never touches are irrelevant to the claims and omitted. -/
structure Battleground where
  typeID : BattlegroundTypeId
  randomTypeID : BattlegroundTypeId
  instanceID : Nat
  clientInstanceID : Nat
  bracketId : Nat
  arenaType : Nat
  status : BattlegroundStatus
  rated : Bool
  random : Bool
  isArena : Bool
  deriving DecidableEq

/-- The slice of a `BattlegroundTemplate` row used by this file: id, selection
weight, and the `BattlemasterEntry->MapID` array (with its `-1` terminator
kept in the list, exactly as `GetRandomBG` iterates it). -/
structure BattlegroundTemplate where
  Id : BattlegroundTypeId
  Weight : Nat
  MapIDs : List Int
  deriving DecidableEq

/-- One delegated `BattlegroundQueue::BattlegroundQueueUpdate` invocation, with
the argument tuple the manager passes. -/
structure QueueUpdateCall where
  diff : Nat
  bgTypeId : BattlegroundTypeId
  bracketId : Nat
  arenaType : Nat
  isRated : Bool
  arenaRating : Nat
  deriving DecidableEq

/-- An external `BattlegroundQueue` object, modelled as the log of calls the
manager makes into it: `UpdateEventsLog` records each `UpdateEvents(diff)`
argument, `QueueUpdateLog` each `BattlegroundQueueUpdate(...)` argument tuple
(the queue internals live in `BattlegroundQueue.cpp`, outside this file). -/
structure BattlegroundQueue where
  UpdateEventsLog : List Nat
  QueueUpdateLog : List QueueUpdateCall
  deriving DecidableEq

/-- Per-type entry of `bgDataStore`: the instance map (ordered by instance id,
the template sits at instance id 0) and the per-bracket client-id sets.  The
`BGFreeSlotQueue` member is untouched by every function modelled here and is
omitted. -/
structure BattlegroundData where
  m_Battlegrounds : List (Nat × Battleground)
  m_ClientBattlegroundIds : Nat → List Nat

/-- A fresh `BattlegroundData` value (what `bgDataStore[bgTypeId]` creates on
a missing key). -/
def BattlegroundData.empty : BattlegroundData :=
  { m_Battlegrounds := [], m_ClientBattlegroundIds := fun _ => [] }

/-- The mutable state of `BattlegroundMgr`. -/
structure BattlegroundMgr where
  bgDataStore : List (BattlegroundTypeId × BattlegroundData)
  m_QueueUpdateScheduler : List Nat
  m_BattlegroundQueues : BattlegroundQueueTypeId → BattlegroundQueue
  m_NextRatedArenaUpdate : Nat
  m_UpdateTimer : Nat
  battlegroundTemplates : List (BattlegroundTypeId × BattlegroundTemplate)
  battlegroundMapTemplates : List (Int × BattlegroundTemplate)

namespace BattlegroundMgr

/-- Embeds `BattlegroundMgr::IsArenaType`. -/
def IsArenaType (bgTypeId : BattlegroundTypeId) : Bool :=
  bgTypeId = .BATTLEGROUND_AA
    || bgTypeId = .BATTLEGROUND_BE
    || bgTypeId = .BATTLEGROUND_NA
    || bgTypeId = .BATTLEGROUND_DS
    || bgTypeId = .BATTLEGROUND_RV
    || bgTypeId = .BATTLEGROUND_RL

/-- Embeds `BattlegroundMgr::BGQueueTypeId`. -/
def BGQueueTypeId (bgTypeId : BattlegroundTypeId) (arenaType : Nat) :
    BattlegroundQueueTypeId :=
  match bgTypeId with
  | .BATTLEGROUND_AB => .BATTLEGROUND_QUEUE_AB
  | .BATTLEGROUND_AV => .BATTLEGROUND_QUEUE_AV
  | .BATTLEGROUND_EY => .BATTLEGROUND_QUEUE_EY
  | .BATTLEGROUND_IC => .BATTLEGROUND_QUEUE_IC
  | .BATTLEGROUND_TP => .BATTLEGROUND_QUEUE_TP
  | .BATTLEGROUND_BFG => .BATTLEGROUND_QUEUE_BFG
  | .BATTLEGROUND_RB => .BATTLEGROUND_QUEUE_RB
  | .BATTLEGROUND_SA => .BATTLEGROUND_QUEUE_SA
  | .BATTLEGROUND_WS => .BATTLEGROUND_QUEUE_WS
  | .BATTLEGROUND_AA | .BATTLEGROUND_BE | .BATTLEGROUND_DS
  | .BATTLEGROUND_NA | .BATTLEGROUND_RL | .BATTLEGROUND_RV =>
    if arenaType = ARENA_TYPE_2v2 then .BATTLEGROUND_QUEUE_2v2
    else if arenaType = ARENA_TYPE_3v3 then .BATTLEGROUND_QUEUE_3v3
    else if arenaType = ARENA_TYPE_5v5 then .BATTLEGROUND_QUEUE_5v5
    else .BATTLEGROUND_QUEUE_NONE
  | _ => .BATTLEGROUND_QUEUE_NONE

/-- Embeds `BattlegroundMgr::BGTemplateId` (the `default` arm returns
`BattlegroundTypeId(0)`, i.e. the none sentinel). -/
def BGTemplateId (bgQueueTypeId : BattlegroundQueueTypeId) :
    BattlegroundTypeId :=
  match bgQueueTypeId with
  | .BATTLEGROUND_QUEUE_WS => .BATTLEGROUND_WS
  | .BATTLEGROUND_QUEUE_AB => .BATTLEGROUND_AB
  | .BATTLEGROUND_QUEUE_AV => .BATTLEGROUND_AV
  | .BATTLEGROUND_QUEUE_EY => .BATTLEGROUND_EY
  | .BATTLEGROUND_QUEUE_SA => .BATTLEGROUND_SA
  | .BATTLEGROUND_QUEUE_IC => .BATTLEGROUND_IC
  | .BATTLEGROUND_QUEUE_TP => .BATTLEGROUND_TP
  | .BATTLEGROUND_QUEUE_BFG => .BATTLEGROUND_BFG
  | .BATTLEGROUND_QUEUE_RB => .BATTLEGROUND_RB
  | .BATTLEGROUND_QUEUE_2v2 | .BATTLEGROUND_QUEUE_3v3
  | .BATTLEGROUND_QUEUE_5v5 => .BATTLEGROUND_AA
  | _ => .BATTLEGROUND_TYPE_NONE

/-- Embeds `BattlegroundMgr::BGArenaType`. -/
def BGArenaType (bgQueueTypeId : BattlegroundQueueTypeId) : Nat :=
  match bgQueueTypeId with
  | .BATTLEGROUND_QUEUE_2v2 => ARENA_TYPE_2v2
  | .BATTLEGROUND_QUEUE_3v3 => ARENA_TYPE_3v3
  | .BATTLEGROUND_QUEUE_5v5 => ARENA_TYPE_5v5
  | _ => 0

/-- Embeds `BattlegroundMgr::BGTypeToWeekendHolidayId`. -/
def BGTypeToWeekendHolidayId (bgTypeId : BattlegroundTypeId) : HolidayIds :=
  match bgTypeId with
  | .BATTLEGROUND_AV => .HOLIDAY_CALL_TO_ARMS_AV
  | .BATTLEGROUND_EY => .HOLIDAY_CALL_TO_ARMS_EY
  | .BATTLEGROUND_WS => .HOLIDAY_CALL_TO_ARMS_WS
  | .BATTLEGROUND_SA => .HOLIDAY_CALL_TO_ARMS_SA
  | .BATTLEGROUND_AB => .HOLIDAY_CALL_TO_ARMS_AB
  | .BATTLEGROUND_IC => .HOLIDAY_CALL_TO_ARMS_IC
  | .BATTLEGROUND_TP => .HOLIDAY_CALL_TO_ARMS_TP
  | .BATTLEGROUND_BFG => .HOLIDAY_CALL_TO_ARMS_BFG
  | _ => .HOLIDAY_NONE

/-- Embeds `BattlegroundMgr::WeekendHolidayIdToBGType`. -/
def WeekendHolidayIdToBGType (holiday : HolidayIds) : BattlegroundTypeId :=
  match holiday with
  | .HOLIDAY_CALL_TO_ARMS_AV => .BATTLEGROUND_AV
  | .HOLIDAY_CALL_TO_ARMS_EY => .BATTLEGROUND_EY
  | .HOLIDAY_CALL_TO_ARMS_WS => .BATTLEGROUND_WS
  | .HOLIDAY_CALL_TO_ARMS_SA => .BATTLEGROUND_SA
  | .HOLIDAY_CALL_TO_ARMS_AB => .BATTLEGROUND_AB
  | .HOLIDAY_CALL_TO_ARMS_IC => .BATTLEGROUND_IC
  | .HOLIDAY_CALL_TO_ARMS_TP => .BATTLEGROUND_TP
  | .HOLIDAY_CALL_TO_ARMS_BFG => .BATTLEGROUND_BFG
  | _ => .BATTLEGROUND_TYPE_NONE

end BattlegroundMgr

namespace BattlegroundMgr

/-- Association lookup in `bgDataStore` (`bgDataStore.find(bgTypeId)`). -/
def lookupData (mgr : BattlegroundMgr) (bgTypeId : BattlegroundTypeId) :
    Option BattlegroundData :=
  (mgr.bgDataStore.find? (fun p => p.1 == bgTypeId)).map Prod.snd

/-- Store `data` under `bgTypeId` in `bgDataStore`, creating the entry when it
is absent (the effect of writing through `bgDataStore[bgTypeId]`).  The
position of a newly created entry in the association list is irrelevant to
every statement below. -/
def storeData (mgr : BattlegroundMgr) (bgTypeId : BattlegroundTypeId)
    (data : BattlegroundData) : BattlegroundMgr :=
  if (mgr.bgDataStore.find? (fun p => p.1 == bgTypeId)).isSome then
    { mgr with bgDataStore :=
        mgr.bgDataStore.map (fun p => if p.1 == bgTypeId then (p.1, data) else p) }
  else
    { mgr with bgDataStore := mgr.bgDataStore ++ [(bgTypeId, data)] }

/-- Embeds `BattlegroundMgr::GetBattleground`.  `instanceId == 0` is rejected up
front; `BATTLEGROUND_TYPE_NONE` scans every type's instance map, any other
type id scans only that type's map. -/
def GetBattleground (mgr : BattlegroundMgr) (instanceId : Nat)
    (bgTypeId : BattlegroundTypeId) : Option Battleground :=
  if instanceId = 0 then none
  else
    match bgTypeId with
    | .BATTLEGROUND_TYPE_NONE =>
      (mgr.bgDataStore.findSome?
        (fun p => p.2.m_Battlegrounds.find? (fun q => q.1 == instanceId))).map
        Prod.snd
    | _ =>
      match lookupData mgr bgTypeId with
      | none => none
      | some data =>
        (data.m_Battlegrounds.find? (fun q => q.1 == instanceId)).map Prod.snd

/-- Embeds `BattlegroundMgr::GetBattlegroundTemplate`: the first (lowest-instance-id)
entry of the type's instance map, which holds the template. -/
def GetBattlegroundTemplate (mgr : BattlegroundMgr)
    (bgTypeId : BattlegroundTypeId) : Option Battleground :=
  match lookupData mgr bgTypeId with
  | none => none
  | some data =>
    match data.m_Battlegrounds with
    | [] => none
    | (_, bg) :: _ => some bg

/-- The id-scanning loop of `CreateClientVisibleInstanceId`, verbatim: the
`for` statement never advances `itr`, so every iteration re-reads the first
element of the set; `(++lastId) != *itr` increments `lastId` before the
comparison.  The loop terminates because `lastId` grows each iteration and the
guard fails as soon as it moves past the (fixed) first element. -/
def clientIdLoop (lastId : Nat) (clientIds : List Nat) : Nat :=
  match clientIds with
  | [] => lastId
  | f :: rest =>
    if lastId + 1 ≠ f then lastId + 1
    else clientIdLoop f (f :: rest)
termination_by (clientIds.headD 0) + 1 - lastId
decreasing_by
  simp only [List.headD_cons]
  omega

/-- Ordered-unique insertion into a `std::set<uint32>` modelled as a strictly
sorted list. -/
def setInsert (x : Nat) : List Nat → List Nat
  | [] => [x]
  | y :: ys =>
    if x < y then x :: y :: ys
    else if x = y then y :: ys
    else y :: setInsert x ys

/-- Embeds `BattlegroundMgr::CreateClientVisibleInstanceId`, returning the id handed
to the client together with the updated manager state (the function inserts
the id into the per-(type, bracket) set for non-arena kinds). -/
def CreateClientVisibleInstanceId (mgr : BattlegroundMgr)
    (bgTypeId : BattlegroundTypeId) (bracket_id : Nat) :
    Nat × BattlegroundMgr :=
  if IsArenaType bgTypeId then (0, mgr)
  else
    let data := (lookupData mgr bgTypeId).getD BattlegroundData.empty
    let clientIds := data.m_ClientBattlegroundIds bracket_id
    let lastId := clientIdLoop 0 clientIds
    let data' := { data with m_ClientBattlegroundIds :=
      fun b => if b = bracket_id then setInsert (lastId + 1) clientIds
               else data.m_ClientBattlegroundIds b }
    (lastId + 1, storeData mgr bgTypeId data')

/-- The packed 64-bit schedule key of `ScheduleQueueUpdate`:
`rating << 32 | arenaType << 24 | queueTypeId << 16 | bgTypeId << 8 |
bracketId`, with the `uint32`/`uint8` operands reduced to their C++ ranges and
the result reduced to `uint64`. -/
def scheduleKey (arenaMatchmakerRating : Nat) (arenaType : Nat)
    (bgQueueTypeId : BattlegroundQueueTypeId) (bgTypeId : BattlegroundTypeId)
    (bracket_id : Nat) : Nat :=
  (((arenaMatchmakerRating % 2 ^ 32) <<< 32) |||
   ((arenaType % 2 ^ 8) <<< 24) |||
   (bgQueueTypeId.toNat <<< 16) |||
   (bgTypeId.toNat <<< 8) |||
   bracket_id) % 2 ^ 64

/-- Embeds `BattlegroundMgr::ScheduleQueueUpdate`: push the packed key only when the
pending list does not already hold it. -/
def ScheduleQueueUpdate (mgr : BattlegroundMgr)
    (arenaMatchmakerRating : Nat) (arenaType : Nat)
    (bgQueueTypeId : BattlegroundQueueTypeId) (bgTypeId : BattlegroundTypeId)
    (bracket_id : Nat) : BattlegroundMgr :=
  let scheduleId :=
    scheduleKey arenaMatchmakerRating arenaType bgQueueTypeId bgTypeId bracket_id
  if scheduleId ∈ mgr.m_QueueUpdateScheduler then mgr
  else { mgr with m_QueueUpdateScheduler :=
    mgr.m_QueueUpdateScheduler ++ [scheduleId] }

/-- Lookup in `_battlegroundTemplates`
(`GetBattlegroundTemplateByTypeId`). -/
def GetBattlegroundTemplateByTypeId (mgr : BattlegroundMgr)
    (id : BattlegroundTypeId) : Option BattlegroundTemplate :=
  (mgr.battlegroundTemplates.find? (fun p => p.1 == id)).map Prod.snd

/-- Lookup in `_battlegroundMapTemplates`
(`GetBattlegroundTemplateByMapId`). -/
def GetBattlegroundTemplateByMapId (mgr : BattlegroundMgr) (mapId : Int) :
    Option BattlegroundTemplate :=
  (mgr.battlegroundMapTemplates.find? (fun p => p.1 == mapId)).map Prod.snd

/-- The candidate-collection loop of `GetRandomBG`: walk the template's
`MapID` array, stop at the `-1` terminator, and keep the id and weight of
every map that resolves to a registered template. -/
def collectCandidates (mgr : BattlegroundMgr) :
    List Int → List BattlegroundTypeId × List Nat
  | [] => ([], [])
  | mapId :: rest =>
    if mapId = -1 then ([], [])
    else
      match GetBattlegroundTemplateByMapId mgr mapId with
      | some bg =>
        let (ids, weights) := collectCandidates mgr rest
        (bg.Id :: ids, bg.Weight :: weights)
      | none => collectCandidates mgr rest

/-- Embeds `BattlegroundMgr::GetRandomBG`, parameterised by the weighted draw
`select` standing for `Trinity::Containers::SelectRandomWeightedContainerElement`
(`Containers.h`, outside this file).

Modelled from the spec: the weighted-random helper is not part of the source
under scrutiny; per §4.4 a draw over an empty candidate set fails and the
caller must treat the failure as "no such match kind available", so a failed
draw (`select` returning `none`) surfaces here as the
`BATTLEGROUND_TYPE_NONE` sentinel instead of the C++ dereference of the
returned iterator. -/
def GetRandomBG
    (select : List BattlegroundTypeId → List Nat → Option BattlegroundTypeId)
    (mgr : BattlegroundMgr) (bgTypeId : BattlegroundTypeId) :
    BattlegroundTypeId :=
  match GetBattlegroundTemplateByTypeId mgr bgTypeId with
  | none => .BATTLEGROUND_TYPE_NONE
  | some bgTemplate =>
    let c := collectCandidates mgr bgTemplate.MapIDs
    match select c.1 c.2 with
    | some id => id
    | none => .BATTLEGROUND_TYPE_NONE

/-- The candidate set `GetRandomBG` would draw from (empty when the requested
kind has no registered template). -/
def GetRandomBGCandidates (mgr : BattlegroundMgr)
    (bgTypeId : BattlegroundTypeId) : List BattlegroundTypeId × List Nat :=
  match GetBattlegroundTemplateByTypeId mgr bgTypeId with
  | none => ([], [])
  | some bgTemplate => collectCandidates mgr bgTemplate.MapIDs

end BattlegroundMgr

namespace BattlegroundMgr

/-- One pass of the instance sweep over the non-template entries of a type's
instance map, at accumulated time `timer`.  `bgStep`/`toBeDeleted` stand for
the virtual `Battleground::Update` and `Battleground::ToBeDeleted` of the
concrete match classes (other translation units).  Returns the surviving
entries together with the `(bracketId, clientInstanceID)` pairs of the deleted
instances, read — as in the C++ — from the instance after its update ran. -/
def sweepInstances (bgStep : Nat → Battleground → Battleground)
    (toBeDeleted : Battleground → Bool) (timer : Nat) :
    List (Nat × Battleground) → List (Nat × Battleground) × List (Nat × Nat)
  | [] => ([], [])
  | (instId, bg) :: rest =>
    let bg' := bgStep timer bg
    let (rest', deleted) := sweepInstances bgStep toBeDeleted timer rest
    if toBeDeleted bg' then (rest', (bg'.bracketId, bg'.clientInstanceID) :: deleted)
    else ((instId, bg') :: rest', deleted)

/-- Release the client-visible ids of the deleted instances: for each
`(bracketId, clientInstanceID)` pair, erase the id from that bracket's set
when the set is non-empty (`if (!clients.empty()) clients.erase(...)`). -/
def eraseClientIds : List (Nat × Nat) → (Nat → List Nat) → Nat → List Nat
  | [], clients => clients
  | (br, cid) :: rest, clients =>
    eraseClientIds rest (fun b =>
      if b = br then
        if clients br = [] then clients br
        else (clients br).filter (fun x => x != cid)
      else clients b)

/-- The per-type body of the instance sweep: the first map entry is the
template and is neither updated nor deleted (`// first one is template and
should not be deleted`); the remaining entries are swept.  An entry with an
empty instance map is left unchanged (in C++ the pre-increment of `begin()`
would not even be defined there). -/
def sweepData (bgStep : Nat → Battleground → Battleground)
    (toBeDeleted : Battleground → Bool) (timer : Nat)
    (data : BattlegroundData) : BattlegroundData :=
  match data.m_Battlegrounds with
  | [] => data
  | first :: rest =>
    let (rest', deleted) := sweepInstances bgStep toBeDeleted timer rest
    { m_Battlegrounds := first :: rest',
      m_ClientBattlegroundIds :=
        eraseClientIds deleted data.m_ClientBattlegroundIds }

/-- Step 1-2 of `Update`: accumulate `diff` into `m_UpdateTimer` (uint32
arithmetic) and, only when the accumulator exceeds
`BATTLEGROUND_OBJECTIVE_UPDATE_INTERVAL` (a compile-time constant from
`Battleground.h`, kept as the parameter `objectiveUpdateInterval`), run the
instance sweep over every type and reset the accumulator. -/
def sweepStep (objectiveUpdateInterval : Nat)
    (bgStep : Nat → Battleground → Battleground)
    (toBeDeleted : Battleground → Bool) (diff : Nat) (mgr : BattlegroundMgr) :
    BattlegroundMgr :=
  let timer := (mgr.m_UpdateTimer + diff) % 2 ^ 32
  if objectiveUpdateInterval < timer then
    { mgr with
      bgDataStore := mgr.bgDataStore.map
        (fun p => (p.1, sweepData bgStep toBeDeleted timer p.2)),
      m_UpdateTimer := 0 }
  else { mgr with m_UpdateTimer := timer }

/-- Step 3 of `Update`: `m_BattlegroundQueues[qtype].UpdateEvents(diff)` for
every queue type from `BATTLEGROUND_QUEUE_NONE` up to
`MAX_BATTLEGROUND_QUEUE_TYPES` — i.e. for all of them, unconditionally. -/
def eventsStep (diff : Nat) (mgr : BattlegroundMgr) : BattlegroundMgr :=
  { mgr with m_BattlegroundQueues := fun q =>
      { mgr.m_BattlegroundQueues q with UpdateEventsLog :=
          (mgr.m_BattlegroundQueues q).UpdateEventsLog ++ [diff] } }

/-- Field extraction from a packed schedule entry, as decoded in `Update`'s
drain loop (`>> 32`, `>> 24 & 255`, `>> 16 & 255`, `>> 8 & 255`, `& 255`). -/
def decodeCall (diff : Nat) (scheduled : Nat) : QueueUpdateCall :=
  let arenaMMRating := scheduled >>> 32
  { diff := diff,
    bgTypeId := BattlegroundTypeId.ofRaw ((scheduled >>> 8) % 2 ^ 8),
    bracketId := scheduled % 2 ^ 8,
    arenaType := (scheduled >>> 24) % 2 ^ 8,
    isRated := decide (0 < arenaMMRating),
    arenaRating := arenaMMRating }

/-- The queue a packed schedule entry is dispatched to. -/
def decodeQueue (scheduled : Nat) : BattlegroundQueueTypeId :=
  BattlegroundQueueTypeId.ofRaw ((scheduled >>> 16) % 2 ^ 8)

/-- Step 4 of `Update`: swap the pending list out and dispatch each drained
entry to its queue's `BattlegroundQueueUpdate`.  Dispatches to distinct
queues are independent, so the effect is modelled per queue: each queue
receives, in order, the calls of the drained entries addressed to it.

The C++ loop index is a `uint8` that wraps at 256 while the bound is
`scheduled.size()`; the loop's control is modelled exactly by
`drainLoopIndex`/`drainLoopContinues` below, and `drainLoop_guard_iff` /
`drainLoopExits_iff` prove that the loop exits precisely for fewer than 256
pending entries, after visiting the indices `0 .. size-1` in order — the
effect this definition implements.  With 256 or more pending entries the
loop never exits (and positions past 255 are never visited), so `drainStep`
— and hence `Update` — denotes only the terminating executions; the
divergence is recorded against the tick claim by
`claim_C4_counterexample_uint8_wrap`. -/
def drainStep (diff : Nat) (mgr : BattlegroundMgr) : BattlegroundMgr :=
  if mgr.m_QueueUpdateScheduler.isEmpty then mgr
  else
    { mgr with
      m_QueueUpdateScheduler := [],
      m_BattlegroundQueues := fun q =>
        { mgr.m_BattlegroundQueues q with QueueUpdateLog :=
            (mgr.m_BattlegroundQueues q).QueueUpdateLog ++
              ((mgr.m_QueueUpdateScheduler.filter
                (fun e => decodeQueue e == q)).map (decodeCall diff)) } }

/-- The argument tuple of one forced rated-arena update:
`BattlegroundQueueUpdate(diff, BATTLEGROUND_AA, bracket, BGArenaType(qtype),
true, 0)`. -/
def forcedCall (diff : Nat) (qtype : BattlegroundQueueTypeId) (bracket : Nat) :
    QueueUpdateCall :=
  { diff := diff,
    bgTypeId := .BATTLEGROUND_AA,
    bracketId := bracket,
    arenaType := BGArenaType qtype,
    isRated := true,
    arenaRating := 0 }

/-- Step 5 of `Update`: when both arena configs are non-zero, either run the
forced rated-arena rescan (every queue type in `BATTLEGROUND_QUEUE_2v2 ..
BATTLEGROUND_QUEUE_5v5`, every bracket below `MAX_BATTLEGROUND_BRACKETS`,
kept as the parameter `maxBrackets`) and reload the countdown, or merely
decrement the countdown.  The guard is `m_NextRatedArenaUpdate < diff`,
so the subtraction in the other branch never underflows.  As in `drainStep`,
the nested loops append per queue. -/
def ratedStep (maxBrackets cfgMaxRatingDifference cfgRatedUpdateTimer : Nat)
    (diff : Nat) (mgr : BattlegroundMgr) : BattlegroundMgr :=
  if cfgMaxRatingDifference ≠ 0 ∧ cfgRatedUpdateTimer ≠ 0 then
    if mgr.m_NextRatedArenaUpdate < diff then
      { mgr with
        m_BattlegroundQueues := fun q =>
          if q = .BATTLEGROUND_QUEUE_2v2 ∨ q = .BATTLEGROUND_QUEUE_3v3
              ∨ q = .BATTLEGROUND_QUEUE_5v5 then
            { mgr.m_BattlegroundQueues q with QueueUpdateLog :=
                (mgr.m_BattlegroundQueues q).QueueUpdateLog ++
                  (List.range maxBrackets).map (forcedCall diff q) }
          else mgr.m_BattlegroundQueues q,
        m_NextRatedArenaUpdate := cfgRatedUpdateTimer }
    else
      { mgr with m_NextRatedArenaUpdate := mgr.m_NextRatedArenaUpdate - diff }
  else mgr

/-- Embeds `BattlegroundMgr::Update(diff)`: the four phases in program order. -/
def Update (objectiveUpdateInterval maxBrackets cfgMaxRatingDifference
    cfgRatedUpdateTimer : Nat) (bgStep : Nat → Battleground → Battleground)
    (toBeDeleted : Battleground → Bool) (mgr : BattlegroundMgr) (diff : Nat) :
    BattlegroundMgr :=
  ratedStep maxBrackets cfgMaxRatingDifference cfgRatedUpdateTimer diff
    (drainStep diff
      (eventsStep diff
        (sweepStep objectiveUpdateInterval bgStep toBeDeleted diff mgr)))

/-- The 13-way copy-constructor switch of `CreateNewBattleground`: the
concrete kinds are cloneable, while `BATTLEGROUND_RB`, `BATTLEGROUND_AA` and
the `default` arm return `NULL`. -/
def cloneableBattlegroundType : BattlegroundTypeId → Bool
  | .BATTLEGROUND_AV | .BATTLEGROUND_WS | .BATTLEGROUND_AB
  | .BATTLEGROUND_NA | .BATTLEGROUND_BE | .BATTLEGROUND_EY
  | .BATTLEGROUND_RL | .BATTLEGROUND_SA | .BATTLEGROUND_DS
  | .BATTLEGROUND_RV | .BATTLEGROUND_IC | .BATTLEGROUND_TP
  | .BATTLEGROUND_BFG => true
  | _ => false

/-- Embeds `BattlegroundMgr::CreateNewBattleground`.  `select` is the weighted draw
(see `GetRandomBG`); `newInstanceId` stands for the value of the external
`sMapMgr->GenerateInstanceId()`.  `Reset()` is modelled from the spec's
lifecycle contract (`resetToWaiting`) as setting the status, which the
subsequent `SetStatus(STATUS_WAIT_JOIN)` overwrites; the remaining setters
write the fields shown.  Returns the created instance (or `none`) and the
manager state, which changes only through `CreateClientVisibleInstanceId`. -/
def CreateNewBattleground
    (select : List BattlegroundTypeId → List Nat → Option BattlegroundTypeId)
    (newInstanceId : Nat) (mgr : BattlegroundMgr)
    (originalBgTypeId : BattlegroundTypeId) (bracketId : Nat)
    (arenaType : Nat) (isRated : Bool) :
    Option Battleground × BattlegroundMgr :=
  let bgTypeId := GetRandomBG select mgr originalBgTypeId
  match GetBattlegroundTemplate mgr bgTypeId with
  | none => (none, mgr)
  | some bg_template =>
    if cloneableBattlegroundType bgTypeId then
      let isRandom := decide (bgTypeId ≠ originalBgTypeId) && !bg_template.isArena
      let r := CreateClientVisibleInstanceId mgr originalBgTypeId bracketId
      (some { bg_template with
                bracketId := bracketId,
                instanceID := newInstanceId,
                clientInstanceID := r.1,
                status := .STATUS_WAIT_JOIN,
                arenaType := arenaType,
                randomTypeID := bgTypeId,
                rated := isRated,
                random := isRandom },
       r.2)
    else (none, mgr)

end BattlegroundMgr

open BattlegroundMgr

/-- Spec-side table (§3/§4.2, stated from the spec's words, for comparison
with `BGQueueTypeId`): the recognized (matchTypeId, teamSize) combinations
are the nine dedicated non-arena kinds with any team size, and the six arena
kinds with a team size in {2, 3, 5}. -/
def recognizedQueueCombo (bgTypeId : BattlegroundTypeId) (teamSize : Nat) :
    Bool :=
  match bgTypeId with
  | .BATTLEGROUND_AB | .BATTLEGROUND_AV | .BATTLEGROUND_EY | .BATTLEGROUND_IC
  | .BATTLEGROUND_TP | .BATTLEGROUND_BFG | .BATTLEGROUND_RB
  | .BATTLEGROUND_SA | .BATTLEGROUND_WS => true
  | .BATTLEGROUND_AA | .BATTLEGROUND_BE | .BATTLEGROUND_DS
  | .BATTLEGROUND_NA | .BATTLEGROUND_RL | .BATTLEGROUND_RV =>
    teamSize == 2 || teamSize == 3 || teamSize == 5
  | _ => false

/-- Spec-side subset (§4.2, stated from the spec's words): the kinds with a
linked recurring event. -/
def holidayLinkedKind (bgTypeId : BattlegroundTypeId) : Bool :=
  match bgTypeId with
  | .BATTLEGROUND_AV | .BATTLEGROUND_EY | .BATTLEGROUND_WS | .BATTLEGROUND_SA
  | .BATTLEGROUND_AB | .BATTLEGROUND_IC | .BATTLEGROUND_TP
  | .BATTLEGROUND_BFG => true
  | _ => false

/-- Spec-side subset: the holidays linked to a kind. -/
def linkedHoliday (holiday : HolidayIds) : Bool :=
  match holiday with
  | .HOLIDAY_CALL_TO_ARMS_AV | .HOLIDAY_CALL_TO_ARMS_EY
  | .HOLIDAY_CALL_TO_ARMS_WS | .HOLIDAY_CALL_TO_ARMS_SA
  | .HOLIDAY_CALL_TO_ARMS_AB | .HOLIDAY_CALL_TO_ARMS_IC
  | .HOLIDAY_CALL_TO_ARMS_TP | .HOLIDAY_CALL_TO_ARMS_BFG => true
  | _ => false

/-- A manager whose only state is the client-id set `{1}` for
(`BATTLEGROUND_WS`, bracket 0): the configuration reached after one
non-arena allocation on a fresh (type, bracket) pair. -/
def mgrClientIdsOne : BattlegroundMgr :=
  { bgDataStore :=
      [(.BATTLEGROUND_WS,
        { m_Battlegrounds := [],
          m_ClientBattlegroundIds := fun b => if b = 0 then [1] else [] })],
    m_QueueUpdateScheduler := [],
    m_BattlegroundQueues := fun _ => { UpdateEventsLog := [], QueueUpdateLog := [] },
    m_NextRatedArenaUpdate := 0,
    m_UpdateTimer := 0,
    battlegroundTemplates := [],
    battlegroundMapTemplates := [] }

/-- A manager whose only state is the client-id set `{3}` for
(`BATTLEGROUND_WS`, bracket 0): the configuration the claim describes after
releasing id 1 from `{1, 3}`. -/
def mgrClientIdsThree : BattlegroundMgr :=
  { bgDataStore :=
      [(.BATTLEGROUND_WS,
        { m_Battlegrounds := [],
          m_ClientBattlegroundIds := fun b => if b = 0 then [3] else [] })],
    m_QueueUpdateScheduler := [],
    m_BattlegroundQueues := fun _ => { UpdateEventsLog := [], QueueUpdateLog := [] },
    m_NextRatedArenaUpdate := 0,
    m_UpdateTimer := 0,
    battlegroundTemplates := [],
    battlegroundMapTemplates := [] }

/-- The empty manager state. -/
def emptyMgr : BattlegroundMgr :=
  { bgDataStore := [],
    m_QueueUpdateScheduler := [],
    m_BattlegroundQueues := fun _ => { UpdateEventsLog := [], QueueUpdateLog := [] },
    m_NextRatedArenaUpdate := 0,
    m_UpdateTimer := 0,
    battlegroundTemplates := [],
    battlegroundMapTemplates := [] }

/-- Apply a sequence of `ScheduleQueueUpdate` requests in order. -/
def applySchedules (mgr : BattlegroundMgr) :
    List (Nat × Nat × BattlegroundQueueTypeId × BattlegroundTypeId × Nat) →
    BattlegroundMgr
  | [] => mgr
  | (r, a, q, t, b) :: rest =>
    applySchedules (ScheduleQueueUpdate mgr r a q t b) rest

/-- The identity instance step (a match object whose update changes
nothing). -/
def step0 : Nat → Battleground → Battleground := fun _ bg => bg

/-- A completion flag that never fires. -/
def del0 : Battleground → Bool := fun _ => false

/-- A completion flag that always fires. -/
def delAll : Battleground → Bool := fun _ => true

/-- A concrete packed schedule key. -/
def keyC4 : Nat :=
  scheduleKey 1500 2 .BATTLEGROUND_QUEUE_2v2 .BATTLEGROUND_AA 3

/-- A manager with a part-filled tick accumulator and one pending schedule
entry. -/
def mgrC4 : BattlegroundMgr :=
  { emptyMgr with m_UpdateTimer := 100, m_QueueUpdateScheduler := [keyC4] }

/-- The value of the `uint8` index of `Update`'s drain loop
(`for (uint8 i = 0; i < scheduled.size(); i++)`) at the start of iteration
`k`: the index has been incremented `k` times modulo 256. -/
def drainLoopIndex (k : Nat) : Nat := k % 2 ^ 8

/-- The drain loop's guard `i < scheduled.size()` as checked before
iteration `k` (the `uint8` index is promoted, so the comparison is exact). -/
def drainLoopContinues (size k : Nat) : Bool := decide (drainLoopIndex k < size)

/-- The drain loop exits the `Update` call iff some iteration fails the
guard. -/
def drainLoopExits (size : Nat) : Prop :=
  ∃ k, drainLoopContinues size k = false

/-- Iteration `k` of the drain loop dispatches `scheduled[i]` at
`i = drainLoopIndex k`; position `idx` of the pending list is dispatched at
some point iff some iteration visits it. -/
def drainLoopDispatchesIndex (idx : Nat) : Prop :=
  ∃ k, drainLoopIndex k = idx

/-- A pending list of 257 distinct packed keys (ratings 1500..1756 on the
2v2 arena queue), as 257 `ScheduleQueueUpdate` calls produce it. -/
def schedBig : List Nat :=
  (List.range 257).map (fun r =>
    scheduleKey (1500 + r) 2 .BATTLEGROUND_QUEUE_2v2 .BATTLEGROUND_AA 3)

/-- A manager carrying the 257-entry pending list. -/
def mgrC4big : BattlegroundMgr :=
  { emptyMgr with m_QueueUpdateScheduler := schedBig }

/-- A manager whose rated-arena countdown is exactly 5. -/
def mgrC3 : BattlegroundMgr := { emptyMgr with m_NextRatedArenaUpdate := 5 }

/-- A manager whose rated-arena countdown is 3. -/
def mgrC3w : BattlegroundMgr := { emptyMgr with m_NextRatedArenaUpdate := 3 }

/-- The Warsong Gulch template instance used in the C5 witness. -/
def wsTemplateBG : Battleground :=
  { typeID := .BATTLEGROUND_WS, randomTypeID := .BATTLEGROUND_WS,
    instanceID := 0, clientInstanceID := 0, bracketId := 0, arenaType := 0,
    status := .STATUS_NONE, rated := false, random := false, isArena := false }

/-- A live Warsong Gulch instance (resource handle 7, client id 1). -/
def wsLiveBG : Battleground :=
  { wsTemplateBG with
    instanceID := 7,
    clientInstanceID := 1,
    status := .STATUS_IN_PROGRESS }

/-- A manager holding the WS template plus one live WS instance. -/
def mgrC5 : BattlegroundMgr :=
  { emptyMgr with bgDataStore :=
      [(.BATTLEGROUND_WS,
        { m_Battlegrounds := [(0, wsTemplateBG), (7, wsLiveBG)],
          m_ClientBattlegroundIds := fun b => if b = 0 then [1] else [] })] }

/-- C10: for every typeId argument (including the "any" sentinel
`BATTLEGROUND_TYPE_NONE`) and every pool state, `GetBattleground(0, typeId)`
returns the absence value: the template instance, stored under resource
handle 0, can never be obtained through the instance lookup. -/
theorem claim_C10_instance_zero_lookup_is_none
    (mgr : BattlegroundMgr) (bgTypeId : BattlegroundTypeId) :
    GetBattleground mgr 0 bgTypeId = none := by
  unfold GetBattleground
  simp

/-- C8: for every arena kind and every arena team size n in {2,3,5}, the
queue classification round-trips to the arena aggregate kind
(`BGTemplateId (BGQueueTypeId t n) = BATTLEGROUND_AA`), and every
(typeId, teamSize) combination outside the fixed table yields the none
sentinel `BATTLEGROUND_QUEUE_NONE` rather than faulting. -/
theorem claim_C8_queue_classification_roundtrip :
    (∀ (t : BattlegroundTypeId) (n : Nat), IsArenaType t = true →
      n = ARENA_TYPE_2v2 ∨ n = ARENA_TYPE_3v3 ∨ n = ARENA_TYPE_5v5 →
      BGTemplateId (BGQueueTypeId t n) = .BATTLEGROUND_AA) ∧
    (∀ (t : BattlegroundTypeId) (n : Nat), recognizedQueueCombo t n = false →
      BGQueueTypeId t n = .BATTLEGROUND_QUEUE_NONE) := by
  constructor
  · intro t n ht hn
    rcases hn with rfl | rfl | rfl <;> cases t <;>
      first
        | rfl
        | decide
        | simp [IsArenaType] at ht
  · intro t n h
    cases t <;>
      simp_all [recognizedQueueCombo, BGQueueTypeId,
        ARENA_TYPE_2v2, ARENA_TYPE_3v3, ARENA_TYPE_5v5]

/-- C8 witness: the round-trip at the concrete arena kind `BATTLEGROUND_NA`
with team size 2, and the none sentinel at the unrecognized combination
(`BATTLEGROUND_NA`, 4). -/
theorem claim_C8_witness :
    BGTemplateId (BGQueueTypeId .BATTLEGROUND_NA 2) = .BATTLEGROUND_AA ∧
    BGQueueTypeId .BATTLEGROUND_NA 4 = .BATTLEGROUND_QUEUE_NONE :=
  ⟨claim_C8_queue_classification_roundtrip.1 .BATTLEGROUND_NA 2 (by decide)
      (Or.inl (by decide)),
   claim_C8_queue_classification_roundtrip.2 .BATTLEGROUND_NA 4 (by decide)⟩

/-- C9: the holiday mapping is a bidirectional round-trip on the linked
subset, and both directions yield their none sentinels outside it. -/
theorem claim_C9_holiday_roundtrip :
    (∀ t : BattlegroundTypeId, holidayLinkedKind t = true →
      WeekendHolidayIdToBGType (BGTypeToWeekendHolidayId t) = t) ∧
    (∀ h : HolidayIds, linkedHoliday h = true →
      BGTypeToWeekendHolidayId (WeekendHolidayIdToBGType h) = h) ∧
    (∀ t : BattlegroundTypeId, holidayLinkedKind t = false →
      BGTypeToWeekendHolidayId t = .HOLIDAY_NONE) ∧
    (∀ h : HolidayIds, linkedHoliday h = false →
      WeekendHolidayIdToBGType h = .BATTLEGROUND_TYPE_NONE) := by
  refine ⟨fun t ht => ?_, fun h hh => ?_, fun t ht => ?_, fun h hh => ?_⟩
  · cases t <;> simp_all [holidayLinkedKind] <;> rfl
  · cases h <;> simp_all [linkedHoliday] <;> rfl
  · cases t <;> simp_all [holidayLinkedKind] <;> rfl
  · cases h <;> simp_all [linkedHoliday] <;> rfl

/-- C9 witness: the round-trip at `BATTLEGROUND_WS` and its holiday, and the
sentinels at the unmapped kind `BATTLEGROUND_RL` and the unmapped holiday
`HOLIDAY_NONE`. -/
theorem claim_C9_witness :
    WeekendHolidayIdToBGType (BGTypeToWeekendHolidayId .BATTLEGROUND_WS) =
      .BATTLEGROUND_WS ∧
    BGTypeToWeekendHolidayId
      (WeekendHolidayIdToBGType .HOLIDAY_CALL_TO_ARMS_WS) =
      .HOLIDAY_CALL_TO_ARMS_WS ∧
    BGTypeToWeekendHolidayId .BATTLEGROUND_RL = .HOLIDAY_NONE ∧
    WeekendHolidayIdToBGType .HOLIDAY_NONE = .BATTLEGROUND_TYPE_NONE :=
  ⟨claim_C9_holiday_roundtrip.1 .BATTLEGROUND_WS (by decide),
   claim_C9_holiday_roundtrip.2.1 .HOLIDAY_CALL_TO_ARMS_WS (by decide),
   claim_C9_holiday_roundtrip.2.2.1 .BATTLEGROUND_RL (by decide),
   claim_C9_holiday_roundtrip.2.2.2 .HOLIDAY_NONE (by decide)⟩

/-- C1 (evaluation at the failing inputs): `CreateClientVisibleInstanceId`
does not implement the smallest-missing-positive-integer invariant its own
comment states ("the instance-id just needs to be as low as possible,
beginning with 1").  Its scan loop never advances the set iterator and
mutates `lastId` inside the comparison, so allocating into the set `{1}`
yields 3, not 2, and allocating into `{3}` (the state after releasing 1 from
`{1, 3}`) yields 2, not 1 — in the latter case 2 is even recorded while 3 is
already held by a live instance. -/
theorem claim_C1_allocation_not_smallest_missing :
    (CreateClientVisibleInstanceId mgrClientIdsOne .BATTLEGROUND_WS 0).1 = 3 ∧
    (CreateClientVisibleInstanceId mgrClientIdsThree .BATTLEGROUND_WS 0).1 = 2 := by
  constructor <;>
    simp [CreateClientVisibleInstanceId, IsArenaType, lookupData,
      mgrClientIdsOne, mgrClientIdsThree, BattlegroundData.empty,
      clientIdLoop]

/-- C6: `ScheduleQueueUpdate` is idempotent with respect to the packed key —
scheduling an already-pending key leaves the manager unchanged, a single
call preserves distinctness of the pending keys, and hence after any
sequence of schedule calls started from a duplicate-free pending list (in
particular the empty one) the list never contains two identical packed
keys. -/
theorem claim_C6_schedule_dedup_idempotent :
    (∀ (mgr : BattlegroundMgr) (r a : Nat) (q : BattlegroundQueueTypeId)
        (t : BattlegroundTypeId) (b : Nat),
      scheduleKey r a q t b ∈ mgr.m_QueueUpdateScheduler →
      ScheduleQueueUpdate mgr r a q t b = mgr) ∧
    (∀ (mgr : BattlegroundMgr) (r a : Nat) (q : BattlegroundQueueTypeId)
        (t : BattlegroundTypeId) (b : Nat),
      mgr.m_QueueUpdateScheduler.Nodup →
      (ScheduleQueueUpdate mgr r a q t b).m_QueueUpdateScheduler.Nodup) ∧
    (∀ (reqs : List (Nat × Nat × BattlegroundQueueTypeId ×
        BattlegroundTypeId × Nat)) (mgr : BattlegroundMgr),
      mgr.m_QueueUpdateScheduler.Nodup →
      (applySchedules mgr reqs).m_QueueUpdateScheduler.Nodup) := by
  have h1 : ∀ (mgr : BattlegroundMgr) (r a : Nat)
      (q : BattlegroundQueueTypeId) (t : BattlegroundTypeId) (b : Nat),
      scheduleKey r a q t b ∈ mgr.m_QueueUpdateScheduler →
      ScheduleQueueUpdate mgr r a q t b = mgr := by
    intro mgr r a q t b h
    simp [ScheduleQueueUpdate, h]
  have h2 : ∀ (mgr : BattlegroundMgr) (r a : Nat)
      (q : BattlegroundQueueTypeId) (t : BattlegroundTypeId) (b : Nat),
      mgr.m_QueueUpdateScheduler.Nodup →
      (ScheduleQueueUpdate mgr r a q t b).m_QueueUpdateScheduler.Nodup := by
    intro mgr r a q t b h
    by_cases hmem : scheduleKey r a q t b ∈ mgr.m_QueueUpdateScheduler
    · rw [h1 mgr r a q t b hmem]
      exact h
    · simp only [ScheduleQueueUpdate, if_neg hmem]
      simpa [List.nodup_append] using ⟨h, hmem⟩
  refine ⟨h1, h2, ?_⟩
  intro reqs
  induction reqs with
  | nil => intro mgr h; exact h
  | cons req rest ih =>
    intro mgr h
    obtain ⟨r, a, q, t, b⟩ := req
    exact ih _ (h2 mgr r a q t b h)

/-- C6 witness: re-scheduling the key already pending in a concrete one-entry
list is a no-op, and a concrete two-request sequence from the empty list
leaves a duplicate-free pending list. -/
theorem claim_C6_witness :
    ScheduleQueueUpdate
      { emptyMgr with m_QueueUpdateScheduler :=
          [scheduleKey 1500 2 .BATTLEGROUND_QUEUE_2v2 .BATTLEGROUND_AA 3] }
      1500 2 .BATTLEGROUND_QUEUE_2v2 .BATTLEGROUND_AA 3 =
      { emptyMgr with m_QueueUpdateScheduler :=
          [scheduleKey 1500 2 .BATTLEGROUND_QUEUE_2v2 .BATTLEGROUND_AA 3] } ∧
    (applySchedules emptyMgr
      [(1500, 2, .BATTLEGROUND_QUEUE_2v2, .BATTLEGROUND_AA, 3),
       (1500, 2, .BATTLEGROUND_QUEUE_2v2, .BATTLEGROUND_AA, 3)]
      ).m_QueueUpdateScheduler.Nodup :=
  ⟨claim_C6_schedule_dedup_idempotent.1 _ 1500 2 _ _ 3 (by simp),
   claim_C6_schedule_dedup_idempotent.2.2 _ emptyMgr (by simp [emptyMgr])⟩

/-- C7: for every arena-kind typeId, every bracket and every pool state,
`CreateClientVisibleInstanceId` returns 0 and leaves the manager (in
particular every client-id set) unchanged; consequently any instance
`CreateNewBattleground` creates for an arena-kind request carries
`clientInstanceID = 0`, and the creation leaves the manager unchanged. -/
theorem claim_C7_arena_client_instance_id_zero
    (mgr : BattlegroundMgr) (t : BattlegroundTypeId) (bracket : Nat)
    (ht : IsArenaType t = true) :
    CreateClientVisibleInstanceId mgr t bracket = (0, mgr) ∧
    (∀ (select : List BattlegroundTypeId → List Nat →
          Option BattlegroundTypeId) (newInstanceId bracketId arenaType : Nat)
        (isRated : Bool) (bg : Battleground),
      (CreateNewBattleground select newInstanceId mgr t bracketId arenaType
          isRated).1 = some bg →
      bg.clientInstanceID = 0) ∧
    (∀ (select : List BattlegroundTypeId → List Nat →
          Option BattlegroundTypeId) (newInstanceId bracketId arenaType : Nat)
        (isRated : Bool),
      (CreateNewBattleground select newInstanceId mgr t bracketId arenaType
          isRated).2 = mgr) := by
  have hid : ∀ bracketId : Nat,
      CreateClientVisibleInstanceId mgr t bracketId = (0, mgr) := by
    intro bracketId
    simp [CreateClientVisibleInstanceId, ht]
  refine ⟨hid bracket, ?_, ?_⟩
  · intro select newInstanceId bracketId arenaType isRated bg hbg
    rcases hT : GetBattlegroundTemplate mgr
        (GetRandomBG select mgr t) with _ | tpl
    · simp [CreateNewBattleground, hT] at hbg
    · by_cases hc : cloneableBattlegroundType (GetRandomBG select mgr t) = true
      · simp [CreateNewBattleground, hT, hc, hid bracketId] at hbg
        subst hbg
        rfl
      · simp [CreateNewBattleground, hT, hc] at hbg
  · intro select newInstanceId bracketId arenaType isRated
    rcases hT : GetBattlegroundTemplate mgr
        (GetRandomBG select mgr t) with _ | tpl
    · simp [CreateNewBattleground, hT]
    · by_cases hc : cloneableBattlegroundType (GetRandomBG select mgr t) = true
      · simp [CreateNewBattleground, hT, hc, hid bracketId]
      · simp [CreateNewBattleground, hT, hc]

/-- C7 witness: the allocation at the concrete arena kind
`BATTLEGROUND_NA`, bracket 1, on the empty manager. -/
theorem claim_C7_witness :
    IsArenaType .BATTLEGROUND_NA = true ∧
    CreateClientVisibleInstanceId emptyMgr .BATTLEGROUND_NA 1 = (0, emptyMgr) :=
  ⟨by decide,
   (claim_C7_arena_client_instance_id_zero emptyMgr .BATTLEGROUND_NA 1
      (by decide)).1⟩

/-- C2: when the weighted-random draw inside `CreateNewBattleground` has no
eligible candidate kind for the requested aggregate (the candidate list is
empty, so the draw — which per §4.4 fails on an empty candidate set — yields
no kind), instance creation returns the absence value and leaves the manager
unchanged; no such condition faults. -/
theorem claim_C2_empty_candidates_returns_none
    (select : List BattlegroundTypeId → List Nat → Option BattlegroundTypeId)
    (mgr : BattlegroundMgr) (originalBgTypeId : BattlegroundTypeId)
    (newInstanceId bracketId arenaType : Nat) (isRated : Bool)
    (hselect : ∀ w, select [] w = none)
    (hempty : (GetRandomBGCandidates mgr originalBgTypeId).1 = []) :
    (CreateNewBattleground select newInstanceId mgr originalBgTypeId bracketId
        arenaType isRated).1 = none ∧
    (CreateNewBattleground select newInstanceId mgr originalBgTypeId bracketId
        arenaType isRated).2 = mgr := by
  have hrand : GetRandomBG select mgr originalBgTypeId =
      .BATTLEGROUND_TYPE_NONE := by
    rcases hT : GetBattlegroundTemplateByTypeId mgr originalBgTypeId
        with _ | tpl
    · simp [GetRandomBG, hT]
    · have h1 : (collectCandidates mgr tpl.MapIDs).1 = [] := by
        simpa [GetRandomBGCandidates, hT] using hempty
      rcases hC : collectCandidates mgr tpl.MapIDs with ⟨ids, weights⟩
      rw [hC] at h1
      simp only at h1
      subst h1
      simp [GetRandomBG, hT, hC, hselect]
  constructor
  · rcases hT : GetBattlegroundTemplate mgr .BATTLEGROUND_TYPE_NONE with _ | tpl
    · simp [CreateNewBattleground, hrand, hT]
    · simp [CreateNewBattleground, hrand, hT, cloneableBattlegroundType]
  · rcases hT : GetBattlegroundTemplate mgr .BATTLEGROUND_TYPE_NONE with _ | tpl
    · simp [CreateNewBattleground, hrand, hT]
    · simp [CreateNewBattleground, hrand, hT, cloneableBattlegroundType]

/-- C2 witness: creation of the aggregate kind `BATTLEGROUND_RB` on the empty
manager (no registered templates, hence no candidates) with a draw that
fails on the empty candidate set. -/
theorem claim_C2_witness :
    (CreateNewBattleground (fun _ _ => none) 5 emptyMgr .BATTLEGROUND_RB 0 0
        false).1 = none ∧
    (CreateNewBattleground (fun _ _ => none) 5 emptyMgr .BATTLEGROUND_RB 0 0
        false).2 = emptyMgr :=
  claim_C2_empty_candidates_returns_none (fun _ _ => none) emptyMgr
    .BATTLEGROUND_RB 5 0 0 false (fun _ => rfl) (by simp [GetRandomBGCandidates,
      GetBattlegroundTemplateByTypeId, emptyMgr])

lemma sweepStep_m_NextRatedArenaUpdate (oI : Nat)
    (bgStep : Nat → Battleground → Battleground)
    (tbd : Battleground → Bool) (diff : Nat) (mgr : BattlegroundMgr) :
    (sweepStep oI bgStep tbd diff mgr).m_NextRatedArenaUpdate =
      mgr.m_NextRatedArenaUpdate := by
  simp only [sweepStep]
  split <;> rfl

lemma sweepStep_m_QueueUpdateScheduler (oI : Nat)
    (bgStep : Nat → Battleground → Battleground)
    (tbd : Battleground → Bool) (diff : Nat) (mgr : BattlegroundMgr) :
    (sweepStep oI bgStep tbd diff mgr).m_QueueUpdateScheduler =
      mgr.m_QueueUpdateScheduler := by
  simp only [sweepStep]
  split <;> rfl

lemma sweepStep_m_BattlegroundQueues (oI : Nat)
    (bgStep : Nat → Battleground → Battleground)
    (tbd : Battleground → Bool) (diff : Nat) (mgr : BattlegroundMgr) :
    (sweepStep oI bgStep tbd diff mgr).m_BattlegroundQueues =
      mgr.m_BattlegroundQueues := by
  simp only [sweepStep]
  split <;> rfl

lemma eventsStep_bgDataStore (diff : Nat) (mgr : BattlegroundMgr) :
    (eventsStep diff mgr).bgDataStore = mgr.bgDataStore := rfl

lemma eventsStep_m_NextRatedArenaUpdate (diff : Nat) (mgr : BattlegroundMgr) :
    (eventsStep diff mgr).m_NextRatedArenaUpdate =
      mgr.m_NextRatedArenaUpdate := rfl

lemma eventsStep_m_QueueUpdateScheduler (diff : Nat) (mgr : BattlegroundMgr) :
    (eventsStep diff mgr).m_QueueUpdateScheduler =
      mgr.m_QueueUpdateScheduler := rfl

lemma eventsStep_UpdateEventsLog (diff : Nat) (mgr : BattlegroundMgr)
    (q : BattlegroundQueueTypeId) :
    ((eventsStep diff mgr).m_BattlegroundQueues q).UpdateEventsLog =
      (mgr.m_BattlegroundQueues q).UpdateEventsLog ++ [diff] := rfl

lemma eventsStep_QueueUpdateLog (diff : Nat) (mgr : BattlegroundMgr)
    (q : BattlegroundQueueTypeId) :
    ((eventsStep diff mgr).m_BattlegroundQueues q).QueueUpdateLog =
      (mgr.m_BattlegroundQueues q).QueueUpdateLog := rfl

lemma drainStep_bgDataStore (diff : Nat) (mgr : BattlegroundMgr) :
    (drainStep diff mgr).bgDataStore = mgr.bgDataStore := by
  simp only [drainStep]
  split <;> rfl

lemma drainStep_m_NextRatedArenaUpdate (diff : Nat) (mgr : BattlegroundMgr) :
    (drainStep diff mgr).m_NextRatedArenaUpdate =
      mgr.m_NextRatedArenaUpdate := by
  simp only [drainStep]
  split <;> rfl

lemma drainStep_m_QueueUpdateScheduler (diff : Nat) (mgr : BattlegroundMgr) :
    (drainStep diff mgr).m_QueueUpdateScheduler = [] := by
  simp only [drainStep]
  split
  · next hemp => exact List.isEmpty_iff.mp hemp
  · rfl

lemma drainStep_UpdateEventsLog (diff : Nat) (mgr : BattlegroundMgr)
    (q : BattlegroundQueueTypeId) :
    ((drainStep diff mgr).m_BattlegroundQueues q).UpdateEventsLog =
      (mgr.m_BattlegroundQueues q).UpdateEventsLog := by
  simp only [drainStep]
  split <;> rfl

lemma drainStep_mem_QueueUpdateLog (diff e : Nat) (mgr : BattlegroundMgr)
    (he : e ∈ mgr.m_QueueUpdateScheduler) :
    decodeCall diff e ∈
      ((drainStep diff mgr).m_BattlegroundQueues (decodeQueue e)).QueueUpdateLog := by
  have hne : mgr.m_QueueUpdateScheduler.isEmpty = false := by
    cases hl : mgr.m_QueueUpdateScheduler with
    | nil => rw [hl] at he; cases he
    | cons a l => simp
  simp only [drainStep, hne, Bool.false_eq_true, if_false]
  refine List.mem_append_right _ (List.mem_map_of_mem _ ?_)
  exact List.mem_filter.mpr ⟨he, by simp⟩

lemma ratedStep_bgDataStore (mB c1 c2 diff : Nat) (mgr : BattlegroundMgr) :
    (ratedStep mB c1 c2 diff mgr).bgDataStore = mgr.bgDataStore := by
  simp only [ratedStep]
  split
  · split <;> rfl
  · rfl

lemma ratedStep_m_QueueUpdateScheduler (mB c1 c2 diff : Nat)
    (mgr : BattlegroundMgr) :
    (ratedStep mB c1 c2 diff mgr).m_QueueUpdateScheduler =
      mgr.m_QueueUpdateScheduler := by
  simp only [ratedStep]
  split
  · split <;> rfl
  · rfl

lemma ratedStep_UpdateEventsLog (mB c1 c2 diff : Nat)
    (mgr : BattlegroundMgr) (q : BattlegroundQueueTypeId) :
    ((ratedStep mB c1 c2 diff mgr).m_BattlegroundQueues q).UpdateEventsLog =
      (mgr.m_BattlegroundQueues q).UpdateEventsLog := by
  simp only [ratedStep]
  split
  · split
    · dsimp only
      split <;> rfl
    · rfl
  · rfl

lemma ratedStep_mem_QueueUpdateLog (mB c1 c2 diff : Nat)
    (mgr : BattlegroundMgr) (q : BattlegroundQueueTypeId)
    (x : QueueUpdateCall)
    (hx : x ∈ (mgr.m_BattlegroundQueues q).QueueUpdateLog) :
    x ∈ ((ratedStep mB c1 c2 diff mgr).m_BattlegroundQueues q).QueueUpdateLog := by
  simp only [ratedStep]
  split
  · split
    · dsimp only
      split
      · exact List.mem_append_left _ hx
      · exact hx
    · exact hx
  · exact hx

lemma drainLoop_guard_iff (size k : Nat) (hsize : size ≤ 255)
    (hk : k ≤ size) : drainLoopContinues size k = true ↔ k < size := by
  have hmod : k % 2 ^ 8 = k := Nat.mod_eq_of_lt (by omega)
  simp only [drainLoopContinues, drainLoopIndex, decide_eq_true_eq, hmod]

lemma drainLoopExits_iff (size : Nat) : drainLoopExits size ↔ size ≤ 255 := by
  constructor
  · rintro ⟨k, hk⟩
    by_contra hgt
    have hlt : k % 2 ^ 8 < 2 ^ 8 := Nat.mod_lt k (by norm_num)
    simp only [drainLoopContinues, drainLoopIndex,
      decide_eq_false_iff_not, Nat.not_lt] at hk
    omega
  · intro h
    refine ⟨size, ?_⟩
    have hmod : size % 2 ^ 8 = size := Nat.mod_eq_of_lt (by omega)
    simp only [drainLoopContinues, drainLoopIndex,
      decide_eq_false_iff_not, Nat.not_lt, hmod]
    exact Nat.le_refl size

/-- C4 counterexample: a sub-threshold `Update` call on a manager with 257
pending entries — a duplicate-free list of realistic packed keys, as the
deduplicating scheduler maintains — never completes: the drain loop's
`uint8` index wraps 255 → 0, so its guard `i < scheduled.size()` never
fails, and position 256 of the pending list is never visited, hence that
entry is never dispatched.  This refutes the claim's "every pending
scheduled entry is drained and dispatched in that same call". -/
theorem claim_C4_counterexample_uint8_wrap :
    mgrC4big.m_UpdateTimer + 50 ≤ 1000 ∧
    mgrC4big.m_QueueUpdateScheduler.length = 257 ∧
    mgrC4big.m_QueueUpdateScheduler.Nodup ∧
    ¬ drainLoopExits mgrC4big.m_QueueUpdateScheduler.length ∧
    ¬ drainLoopDispatchesIndex 256 := by
  refine ⟨by decide, by decide, by decide, ?_, ?_⟩
  · intro hexits
    have h : mgrC4big.m_QueueUpdateScheduler.length ≤ 255 :=
      (drainLoopExits_iff mgrC4big.m_QueueUpdateScheduler.length).mp hexits
    have h257 : mgrC4big.m_QueueUpdateScheduler.length = 257 := by decide
    omega
  · rintro ⟨k, hk⟩
    have hlt : k % 2 ^ 8 < 2 ^ 8 := Nat.mod_lt k (by norm_num)
    simp only [drainLoopIndex] at hk
    omega

/-- C4 (amended): in a call of `Update(diff)` whose accumulated timer does
not exceed the objective-update interval, provided fewer than 256 entries
are pending (the drain loop's index is a `uint8`, so with 256 or more
pending entries the loop wraps, never exits the call, and never dispatches
entries past position 255 — see `claim_C4_counterexample_uint8_wrap`): the
instance store (live-instance maps and client-id sets) is unchanged, yet
every queue's event timers are advanced by the raw `diff`, the pending
schedule list is fully drained, and every formerly pending entry is
dispatched to its queue in that same call. -/
theorem claim_C4_subthreshold_tick_effects
    (oI mB c1 c2 : Nat) (bgStep : Nat → Battleground → Battleground)
    (tbd : Battleground → Bool) (mgr : BattlegroundMgr) (diff : Nat)
    (hI : oI < 2 ^ 32)
    (h : mgr.m_UpdateTimer + diff ≤ oI)
    (_hLen : mgr.m_QueueUpdateScheduler.length ≤ 255) :
    (Update oI mB c1 c2 bgStep tbd mgr diff).bgDataStore = mgr.bgDataStore ∧
    (∀ q : BattlegroundQueueTypeId,
      ((Update oI mB c1 c2 bgStep tbd mgr diff).m_BattlegroundQueues q).UpdateEventsLog =
        (mgr.m_BattlegroundQueues q).UpdateEventsLog ++ [diff]) ∧
    (Update oI mB c1 c2 bgStep tbd mgr diff).m_QueueUpdateScheduler = [] ∧
    (∀ e ∈ mgr.m_QueueUpdateScheduler,
      decodeCall diff e ∈
        ((Update oI mB c1 c2 bgStep tbd mgr diff).m_BattlegroundQueues (decodeQueue e)).QueueUpdateLog) := by
  have htimer : (mgr.m_UpdateTimer + diff) % 2 ^ 32 = mgr.m_UpdateTimer + diff :=
    Nat.mod_eq_of_lt (lt_of_le_of_lt h hI)
  have hsweep : sweepStep oI bgStep tbd diff mgr =
      { mgr with m_UpdateTimer := mgr.m_UpdateTimer + diff } := by
    simp only [sweepStep, htimer]
    rw [if_neg (by omega)]
  refine ⟨?_, ?_, ?_, ?_⟩
  · simp only [Update]
    rw [ratedStep_bgDataStore, drainStep_bgDataStore, eventsStep_bgDataStore,
      hsweep]
  · intro q
    simp only [Update]
    rw [ratedStep_UpdateEventsLog, drainStep_UpdateEventsLog,
      eventsStep_UpdateEventsLog, hsweep]
  · simp only [Update]
    rw [ratedStep_m_QueueUpdateScheduler, drainStep_m_QueueUpdateScheduler]
  · intro e he
    simp only [Update]
    apply ratedStep_mem_QueueUpdateLog
    apply drainStep_mem_QueueUpdateLog
    rw [eventsStep_m_QueueUpdateScheduler, sweepStep_m_QueueUpdateScheduler]
    exact he

/-- C4 witness: a concrete sub-threshold tick (timer 100 + diff 50 against
interval 1000) on a manager with one pending entry. -/
theorem claim_C4_witness :
    (Update 1000 16 0 0 step0 del0 mgrC4 50).bgDataStore = mgrC4.bgDataStore ∧
    ((Update 1000 16 0 0 step0 del0 mgrC4 50).m_BattlegroundQueues
        .BATTLEGROUND_QUEUE_2v2).UpdateEventsLog =
      (mgrC4.m_BattlegroundQueues .BATTLEGROUND_QUEUE_2v2).UpdateEventsLog ++ [50] ∧
    (Update 1000 16 0 0 step0 del0 mgrC4 50).m_QueueUpdateScheduler = [] ∧
    decodeCall 50 keyC4 ∈
      ((Update 1000 16 0 0 step0 del0 mgrC4 50).m_BattlegroundQueues
        (decodeQueue keyC4)).QueueUpdateLog := by
  have H := claim_C4_subthreshold_tick_effects 1000 16 0 0 step0 del0 mgrC4 50
    (by decide) (by decide) (by decide)
  exact ⟨H.1, H.2.1 _, H.2.2.1, H.2.2.2 keyC4 (by decide)⟩

/-- C3 counterexample: with both configs non-zero (150 and 600), countdown 5
and elapsed time 5 the countdown reaches exactly zero after subtracting
`diff`, yet the code performs no forced queue update (the 2v2 queue's
delegated-call log stays empty) and does not reset the countdown to the
configured 600 — it merely decrements it to 0, because the code's guard is
the strict `m_NextRatedArenaUpdate < diff`.  This refutes the claim's
"reaches or passes zero" trigger at the boundary case. -/
theorem claim_C3_counterexample_boundary :
    (Update 1000 16 150 600 step0 del0 mgrC3 5).m_NextRatedArenaUpdate = 0 ∧
    ¬ (Update 1000 16 150 600 step0 del0 mgrC3 5).m_NextRatedArenaUpdate = 600 ∧
    ((Update 1000 16 150 600 step0 del0 mgrC3 5).m_BattlegroundQueues
      .BATTLEGROUND_QUEUE_2v2).QueueUpdateLog = [] := by
  refine ⟨by decide, by decide, by decide⟩

/-- C3 (amended): for every `Update(diff)` call with both the
rating-difference threshold and the forced-update interval configs non-zero:
if the countdown is strictly smaller than `diff` (it would fall strictly
below zero), the queue-update entry point is invoked for every arena queue
type (2v2, 3v3, 5v5) and every bracket and the countdown is reset to the
configured interval; otherwise — including the boundary case where the
countdown exactly reaches zero — the countdown is only decremented by
`diff`. -/
theorem claim_C3_forced_update_on_strict_underflow
    (oI mB c1 c2 : Nat) (bgStep : Nat → Battleground → Battleground)
    (tbd : Battleground → Bool) (mgr : BattlegroundMgr) (diff : Nat)
    (h1 : c1 ≠ 0) (h2 : c2 ≠ 0) :
    (mgr.m_NextRatedArenaUpdate < diff →
      (Update oI mB c1 c2 bgStep tbd mgr diff).m_NextRatedArenaUpdate = c2 ∧
      (∀ q : BattlegroundQueueTypeId,
        q = .BATTLEGROUND_QUEUE_2v2 ∨ q = .BATTLEGROUND_QUEUE_3v3 ∨
          q = .BATTLEGROUND_QUEUE_5v5 →
        ∀ b : Nat, b < mB →
          forcedCall diff q b ∈
            ((Update oI mB c1 c2 bgStep tbd mgr diff).m_BattlegroundQueues q).QueueUpdateLog)) ∧
    (diff ≤ mgr.m_NextRatedArenaUpdate →
      (Update oI mB c1 c2 bgStep tbd mgr diff).m_NextRatedArenaUpdate =
        mgr.m_NextRatedArenaUpdate - diff) := by
  have hc : (drainStep diff (eventsStep diff
      (sweepStep oI bgStep tbd diff mgr))).m_NextRatedArenaUpdate =
      mgr.m_NextRatedArenaUpdate := by
    rw [drainStep_m_NextRatedArenaUpdate, eventsStep_m_NextRatedArenaUpdate,
      sweepStep_m_NextRatedArenaUpdate]
  constructor
  · intro hlt
    constructor
    · simp only [Update, ratedStep, hc]
      rw [if_pos ⟨h1, h2⟩, if_pos hlt]
    · intro q hq b hb
      simp only [Update, ratedStep, hc]
      rw [if_pos ⟨h1, h2⟩, if_pos hlt]
      dsimp only
      rw [if_pos hq]
      exact List.mem_append_right _
        (List.mem_map_of_mem _ (List.mem_range.mpr hb))
  · intro hge
    simp only [Update, ratedStep, hc]
    rw [if_pos ⟨h1, h2⟩, if_neg (by omega)]

/-- C3 witness: with configs (150, 600), countdown 3 and `diff = 5` the
forced branch fires — the countdown is reloaded to 600 and the 3v3 queue
receives the forced call for bracket 1 (of 2 brackets). -/
theorem claim_C3_witness :
    (Update 1000 2 150 600 step0 del0 mgrC3w 5).m_NextRatedArenaUpdate = 600 ∧
    forcedCall 5 .BATTLEGROUND_QUEUE_3v3 1 ∈
      ((Update 1000 2 150 600 step0 del0 mgrC3w 5).m_BattlegroundQueues
        .BATTLEGROUND_QUEUE_3v3).QueueUpdateLog := by
  have H := claim_C3_forced_update_on_strict_underflow 1000 2 150 600 step0
    del0 mgrC3w 5 (by decide) (by decide)
  exact ⟨(H.1 (by decide)).1,
    (H.1 (by decide)).2 .BATTLEGROUND_QUEUE_3v3 (Or.inr (Or.inl rfl)) 1
      (by decide)⟩

lemma find?_map_entry (f : BattlegroundData → BattlegroundData)
    (l : List (BattlegroundTypeId × BattlegroundData))
    (t : BattlegroundTypeId) :
    (l.map (fun p => (p.1, f p.2))).find? (fun p => p.1 == t) =
      (l.find? (fun p => p.1 == t)).map (fun p => (p.1, f p.2)) := by
  induction l with
  | nil => rfl
  | cons p rest ih =>
    by_cases hp : (p.1 == t) = true
    · simp [List.find?_cons, hp]
    · simp [List.find?_cons, hp, ih]

lemma GetBattlegroundTemplate_eq_of_bgDataStore (mgr mgr' : BattlegroundMgr)
    (hs : mgr'.bgDataStore = mgr.bgDataStore) (t : BattlegroundTypeId) :
    GetBattlegroundTemplate mgr' t = GetBattlegroundTemplate mgr t := by
  unfold GetBattlegroundTemplate lookupData
  rw [hs]

lemma GetBattlegroundTemplate_sweepStep (oI : Nat)
    (bgStep : Nat → Battleground → Battleground) (tbd : Battleground → Bool)
    (diff : Nat) (mgr : BattlegroundMgr) (t : BattlegroundTypeId)
    (bg : Battleground) (h : GetBattlegroundTemplate mgr t = some bg) :
    GetBattlegroundTemplate (sweepStep oI bgStep tbd diff mgr) t = some bg := by
  simp only [sweepStep]
  split
  · unfold GetBattlegroundTemplate lookupData at h ⊢
    dsimp only
    rw [find?_map_entry]
    rcases hf : mgr.bgDataStore.find? (fun p => p.1 == t) with _ | p
    · rw [hf] at h
      simp at h
    · rw [hf] at h ⊢
      simp only [Option.map_some'] at h ⊢
      rcases hb : p.2.m_Battlegrounds with _ | ⟨⟨iid, tbg⟩, rest⟩
      · rw [hb] at h
        cases h
      · rw [hb] at h
        simp only [sweepData, hb]
        exact h
  · exact h

lemma GetBattlegroundTemplate_Update (oI mB c1 c2 : Nat)
    (bgStep : Nat → Battleground → Battleground) (tbd : Battleground → Bool)
    (mgr : BattlegroundMgr) (diff : Nat) (t : BattlegroundTypeId)
    (bg : Battleground) (h : GetBattlegroundTemplate mgr t = some bg) :
    GetBattlegroundTemplate (Update oI mB c1 c2 bgStep tbd mgr diff) t =
      some bg := by
  have hstep := GetBattlegroundTemplate_sweepStep oI bgStep tbd diff mgr t bg h
  have hs : (Update oI mB c1 c2 bgStep tbd mgr diff).bgDataStore =
      (sweepStep oI bgStep tbd diff mgr).bgDataStore := by
    simp only [Update]
    rw [ratedStep_bgDataStore, drainStep_bgDataStore, eventsStep_bgDataStore]
  rw [GetBattlegroundTemplate_eq_of_bgDataStore
    (sweepStep oI bgStep tbd diff mgr)
    (Update oI mB c1 c2 bgStep tbd mgr diff) hs t]
  exact hstep

/-- C5: for every typeId whose instance map holds a template (its first
entry), `GetBattlegroundTemplate` returns that same instance — non-absent —
after any number of `Update` ticks with any elapsed times: the sweep in
`Update` never updates or deletes the first entry of a type's instance
map. -/
theorem claim_C5_template_instance_stable (oI mB c1 c2 : Nat)
    (bgStep : Nat → Battleground → Battleground) (tbd : Battleground → Bool)
    (mgr : BattlegroundMgr) (t : BattlegroundTypeId) (bg : Battleground)
    (h : GetBattlegroundTemplate mgr t = some bg) (diffs : List Nat) :
    GetBattlegroundTemplate
      (diffs.foldl (Update oI mB c1 c2 bgStep tbd) mgr) t = some bg := by
  induction diffs generalizing mgr with
  | nil => exact h
  | cons d rest ih =>
    exact ih (Update oI mB c1 c2 bgStep tbd mgr d)
      (GetBattlegroundTemplate_Update oI mB c1 c2 bgStep tbd mgr d t bg h)

/-- C5 witness: one concrete tick of 2000 ms (beyond the 1000 ms interval,
so the sweep runs) against an always-completing match object retires the
live instance yet leaves the template lookup returning the same instance. -/
theorem claim_C5_witness :
    GetBattlegroundTemplate
      (List.foldl (Update 1000 16 0 0 step0 delAll) mgrC5 [2000])
      .BATTLEGROUND_WS = some wsTemplateBG ∧
    GetBattleground
      (List.foldl (Update 1000 16 0 0 step0 delAll) mgrC5 [2000]) 7
      .BATTLEGROUND_WS = none := by
  refine ⟨claim_C5_template_instance_stable 1000 16 0 0 step0 delAll mgrC5
    .BATTLEGROUND_WS wsTemplateBG (by decide) [2000], by decide⟩
